import Mathlib

/-
Verification of the rename-controller workflow in
src/vs/workbench/parts/emmet/node/actions/toggleComment.ts
(the RenameController / RenameAction part; the trivial emmet
toggle-comment registration carries no logic and is out of scope).

The embedding is shallow: the promise chain of RenameController.run is
modelled as a deterministic function from an environment (the results the
external collaborators would deliver: word lookup, input collector,
rename resolver, transaction finish) to a trace of observable effects
plus the settled outcome of the returned promise.
-/

namespace Rename

/-- Severity levels of the messaging service (vs/base/common/severity). -/
inductive Severity where
  | Ignore
  | Info
  | Warning
  | Error
deriving DecidableEq, Repr

/-- An opaque document edit, the unit staged into a BulkEdit transaction.
The controller never inspects it, so it is a bare identifier. -/
structure DocumentEdit where
  id : Nat
deriving DecidableEq, Repr

/-- A rejection value travelling along a promise chain. JavaScript allows
any value here; the controller distinguishes plain strings
(typeof err === string), promise-cancellation errors
(isPromiseCanceledError), and everything else (opaque). -/
inductive JsValue where
  | str (s : String)
  | canceled
  | error (code : Nat)
deriving DecidableEq, Repr

/-- The check typeof err === string performed at line 126 of the source. -/
def JsValue.isString : JsValue → Bool
  | .str _ => true
  | _ => false

/-- isPromiseCanceledError from vs/base/common/errors: recognises the
dedicated cancellation signal and nothing else. -/
def isPromiseCanceledError : JsValue → Bool
  | .canceled => true
  | _ => false

/-- A range in the editor (IRange from editorCommon). -/
structure IRange where
  startLineNumber : Int
  startColumn : Int
  endLineNumber : Int
  endColumn : Int
deriving DecidableEq, Repr

/-- A selection; like a vscode Range its start position is normalised to
be before or equal to its end position. -/
structure Selection where
  startLineNumber : Int
  startColumn : Int
  endLineNumber : Int
  endColumn : Int
deriving DecidableEq, Repr

/-- Range.isEmpty from the editor core: start equals end. -/
def Selection.isEmpty (s : Selection) : Bool :=
  s.startLineNumber == s.endLineNumber && s.startColumn == s.endColumn

/-- The result of getWordAtPosition on the document model: token text and
its one-based column bounds on the line. -/
structure WordAtPosition where
  word : String
  startColumn : Int
  endColumn : Int
deriving DecidableEq, Repr

/-- Lines 95-110 of the source: the initial highlighted sub-range inside
the token, as (selectionStart, selectionEnd) passed to getInput.
Defaults to the whole token; when the selection is non-empty and lies on
a single line it is intersected with the token's column span. -/
def computeSelectionRange (selection : Selection) (word : WordAtPosition) : Int × Int :=
  if !selection.isEmpty && selection.startLineNumber == selection.endLineNumber then
    (max 0 (selection.startColumn - word.startColumn),
     min word.endColumn selection.endColumn - word.startColumn)
  else
    (0, (word.word.length : Int))

/-- Clamp a token-relative column to the interval from 0 to len. -/
def clampToToken (len v : Int) : Int := min len (max 0 v)

/-- The sub-range as the specification words it: the intersection of the
selection with the token, made token-relative and clamped to
[0, tokenLength]; whole token when empty or multi-line. -/
def specSubRange (selection : Selection) (word : WordAtPosition) : Int × Int :=
  if selection.isEmpty || selection.startLineNumber != selection.endLineNumber then
    (0, (word.word.length : Int))
  else
    (clampToToken (word.word.length : Int) (selection.startColumn - word.startColumn),
     clampToToken (word.word.length : Int) (selection.endColumn - word.startColumn))

/-- The resolver result (IRenameResult): an optional human-readable reject
reason together with the ordered list of edits. -/
structure RenameResult where
  rejectReason : Option String
  edits : List DocumentEdit
deriving DecidableEq, Repr

/-- JavaScript truthiness of the optional rejectReason field as tested at
line 162 (if result.rejectReason): undefined, null and the empty string
are all falsy. -/
def rejectReasonTruthy : Option String → Bool
  | none => false
  | some s => !s.isEmpty

/-- An observable effect of one run() interaction, in order of occurrence. -/
inductive Event where
  | setVisible (b : Bool)
  | showInput (range : IRange) (text : String) (selStart selEnd : Int)
  | focusEditor
  | createBulkEdit
  | invokeRename (newName : String)
  | showProgressWhile (delayMs : Nat)
  | stageEdits (edits : List DocumentEdit)
  | finish
  | setSelection (sel : Selection)
  | showMessage (sev : Severity) (text : String)
deriving DecidableEq, Repr

/-- The settled outcome of the value run() returns: undefined (no token
under the cursor), a resolved promise, or a rejected promise carrying an
error value. -/
inductive RunOutcome where
  | noop
  | resolved
  | rejected (err : JsValue)
deriving DecidableEq, Repr

/-- The environment of one interaction: the answers the external
collaborators deliver when the controller calls them. -/
structure RenameEnv where
  wordAtPosition : Option WordAtPosition
  selection : Selection
  inputResult : Except JsValue String
  renameResult : Except JsValue RenameResult
  finishResult : Except JsValue (Option Selection)

/-- The generic failure text of line 129. -/
def renameFailedText : String := "Sorry, rename failed to execute."

/-- Lines 125-132: the error handler attached to _prepareRename. A plain
string (a reject reason) becomes an informational message and the chain
resolves; anything else shows the generic failure message and is
re-propagated as a rejection. -/
def prepareRenameErrHandler (err : JsValue) : List Event × RunOutcome :=
  match err with
  | .str s => ([.showMessage .Info s], .resolved)
  | e => ([.showMessage .Error renameFailedText], .rejected e)

/-- Lines 119-123: the continuation of edit.finish(); a truthy returned
selection is applied to the editor, a rejection passes through. -/
def finishContinuation (finishResult : Except JsValue (Option Selection)) :
    List Event × RunOutcome :=
  match finishResult with
  | .ok (some sel) => ([.setSelection sel], .resolved)
  | .ok none => ([], .resolved)
  | .error e => ([], .rejected e)

/-- The part of the renameOperation chain (lines 117-132 and 161-167)
that runs once rename(...) settles: _prepareRename rejects with a truthy
rejectReason or stages the edits and yields the transaction handle; the
success handler then calls finish(). The error handler of that .then is
attached to _prepareRename only, so a rejection arising inside the
success handler (from finish()) bypasses it. -/
def renameOperationTail (renameResult : Except JsValue RenameResult)
    (finishResult : Except JsValue (Option Selection)) : List Event × RunOutcome :=
  match renameResult with
  | .error e => prepareRenameErrHandler e
  | .ok result =>
    if rejectReasonTruthy result.rejectReason then
      prepareRenameErrHandler (.str (result.rejectReason.getD ""))
    else
      ((Event.stageEdits result.edits) :: Event.finish :: (finishContinuation finishResult).1,
       (finishContinuation finishResult).2)

/-- Lines 112-113: set the visibility context key and show the input
field seeded with the word range, the word text and the computed
sub-range. -/
def showInputEvents (selection : Selection) (word : WordAtPosition) : List Event :=
  [Event.setVisible true,
   Event.showInput
     { startLineNumber := selection.startLineNumber
       startColumn := word.startColumn
       endLineNumber := selection.startLineNumber
       endColumn := word.endColumn }
     word.word
     (computeSelectionRange selection word).1
     (computeSelectionRange selection word).2]

/-- RenameController.run (lines 86-145): the trace of observable effects
plus the settled outcome of the returned promise. The accepted-input
handler resets the key, focuses the editor, synchronously creates the
BulkEdit and invokes the resolver inside _prepareRename, hands the
pending renameOperation to the progress service with a 250ms delay, and
then the chain continues; the rejection handler resets the key, focuses
the editor and swallows exactly the cancellation signal. -/
def run (env : RenameEnv) : List Event × RunOutcome :=
  match env.wordAtPosition with
  | none => ([], .noop)
  | some word =>
    match env.inputResult with
    | .ok newName =>
      (showInputEvents env.selection word ++
        [Event.setVisible false, Event.focusEditor, Event.createBulkEdit,
         Event.invokeRename newName, Event.showProgressWhile 250] ++
        (renameOperationTail env.renameResult env.finishResult).1,
       (renameOperationTail env.renameResult env.finishResult).2)
    | .error e =>
      (showInputEvents env.selection word ++ [Event.setVisible false, Event.focusEditor],
       if isPromiseCanceledError e then .resolved else .rejected e)

/-- One fold step tracking the visibility context key through a trace. -/
def visStep (acc : Bool) (e : Event) : Bool :=
  match e with
  | .setVisible b => b
  | _ => acc

/-- Value of the renameInputVisible context key after a trace; the key is
created with default false and reset() restores that default. -/
def finalVisible (events : List Event) : Bool :=
  events.foldl visStep false

/-- All messages shown through the message service, in order. -/
def messagesOf (events : List Event) : List (Severity × String) :=
  events.filterMap fun e =>
    match e with
    | .showMessage sev m => some (sev, m)
    | _ => none

/-- All edits staged into the transaction, in order. -/
def stagedOf (events : List Event) : List DocumentEdit :=
  events.foldl (fun acc e =>
    match e with
    | .stageEdits es => acc ++ es
    | _ => acc) []

/-- Number of finish() calls on the transaction. -/
def finishCount (events : List Event) : Nat :=
  events.countP fun e =>
    match e with
    | .finish => true
    | _ => false

/-- Number of editor.focus() calls. -/
def focusCount (events : List Event) : Nat :=
  events.countP fun e =>
    match e with
    | .focusEditor => true
    | _ => false

/-- Number of fresh BulkEdit transactions created. -/
def createBulkEditCount (events : List Event) : Nat :=
  events.countP fun e =>
    match e with
    | .createBulkEdit => true
    | _ => false

/-- All selections written back to the editor, in order. -/
def selectionsSet (events : List Event) : List Selection :=
  events.filterMap fun e =>
    match e with
    | .setSelection s => some s
    | _ => none

/-- The delay thresholds handed to the progress service, in order. -/
def progressCalls (events : List Event) : List Nat :=
  events.filterMap fun e =>
    match e with
    | .showProgressWhile d => some d
    | _ => none

/-- All getInput invocations on the collector, with their seeds. -/
def inputShows (events : List Event) : List (IRange × String × Int × Int) :=
  events.filterMap fun e =>
    match e with
    | .showInput r t a b => some (r, t, a, b)
    | _ => none

/-- Scans a trace with the visibility key starting at the given value and
checks that the key is true at the moment of every showInput event. -/
def shownOnlyWhileVisible : List Event → Bool → Bool
  | [], _ => true
  | Event.setVisible b :: rest, _ => shownOnlyWhileVisible rest b
  | Event.showInput _ _ _ _ :: rest, cur => cur && shownOnlyWhileVisible rest cur
  | _ :: rest, cur => shownOnlyWhileVisible rest cur

/-- Modelled from the spec: the progress indicator service
(IProgressService.showWhile, outside src) shows a busy indicator for a
pending operation only if the operation outlives the given delay
threshold, and never cancels the operation itself. -/
def progressVisible (durationMs delayMs : Nat) : Bool :=
  decide (delayMs < durationMs)

/-- A first sample edit for concrete interactions. -/
def edit1 : DocumentEdit := ⟨1⟩

/-- A second sample edit for concrete interactions. -/
def edit2 : DocumentEdit := ⟨2⟩

/-- The token foo at columns 5-8 of line 1. -/
def sampleWord : WordAtPosition :=
  { word := "foo", startColumn := 5, endColumn := 8 }

/-- An empty selection (a bare cursor) at line 1, column 6. -/
def cursorSelection : Selection :=
  { startLineNumber := 1, startColumn := 6, endLineNumber := 1, endColumn := 6 }

/-- A sample selection used as the result of finish(). -/
def sampleResultSelection : Selection :=
  { startLineNumber := 2, startColumn := 1, endLineNumber := 2, endColumn := 4 }

/-- Environment with no token under the cursor. -/
def envNoWord : RenameEnv :=
  { wordAtPosition := none
    selection := cursorSelection
    inputResult := Except.ok "bar"
    renameResult := Except.ok { rejectReason := none, edits := [] }
    finishResult := Except.ok none }

/-- Environment in which the resolver answers with the empty reject
reason string together with a nonempty edit list. -/
def envEmptyReason : RenameEnv :=
  { wordAtPosition := some sampleWord
    selection := cursorSelection
    inputResult := Except.ok "bar"
    renameResult := Except.ok { rejectReason := some "", edits := [edit1] }
    finishResult := Except.ok none }

/-- Environment in which the resolver declines with a nonempty reject
reason. -/
def envReason : RenameEnv :=
  { wordAtPosition := some sampleWord
    selection := cursorSelection
    inputResult := Except.ok "bar"
    renameResult := Except.ok { rejectReason := some "cannot rename this", edits := [] }
    finishResult := Except.ok none }

/-- Environment in which the collector rejects with the cancellation
signal. -/
def envCancel : RenameEnv :=
  { wordAtPosition := some sampleWord
    selection := cursorSelection
    inputResult := Except.error JsValue.canceled
    renameResult := Except.ok { rejectReason := none, edits := [] }
    finishResult := Except.ok none }

/-- Environment in which finish() rejects with an opaque non-string
error. -/
def envFinishError : RenameEnv :=
  { wordAtPosition := some sampleWord
    selection := cursorSelection
    inputResult := Except.ok "bar"
    renameResult := Except.ok { rejectReason := none, edits := [edit1, edit2] }
    finishResult := Except.error (JsValue.error 7) }

/-- Environment in which the resolver itself rejects with an opaque
non-string error. -/
def envResolverError : RenameEnv :=
  { wordAtPosition := some sampleWord
    selection := cursorSelection
    inputResult := Except.ok "bar"
    renameResult := Except.error (JsValue.error 3)
    finishResult := Except.ok none }

/-- Environment of a fully successful commit returning a selection. -/
def envCommit : RenameEnv :=
  { wordAtPosition := some sampleWord
    selection := cursorSelection
    inputResult := Except.ok "bar"
    renameResult := Except.ok { rejectReason := none, edits := [edit1, edit2] }
    finishResult := Except.ok (some sampleResultSelection) }

/-- Environment of a successful commit returning no selection. -/
def envCommitNoSelection : RenameEnv :=
  { wordAtPosition := some sampleWord
    selection := cursorSelection
    inputResult := Except.ok "bar"
    renameResult := Except.ok { rejectReason := none, edits := [edit1] }
    finishResult := Except.ok none }

/-- The facts about one editor that the action checks consult:
RenameProviderRegistry.has(model), model.hasEditableRange(), the
writability of the document, and the answers of the base EditorAction
checks that live outside src. -/
structure ActionContext where
  hasRenameProvider : Bool
  hasEditableRange : Bool
  writable : Bool
  superSupported : Bool
  superEnabledOther : Bool

/-- Modelled from the spec: the base EditorAction.enabled check is
outside src; per the spec the action is enabled only when the document
is writable, so the base check is modelled as writability combined with
its remaining, abstract conditions. -/
def superEnabled (ctx : ActionContext) : Bool :=
  ctx.writable && ctx.superEnabledOther

/-- Lines 202-207: RenameAction.enabled returns false when the base
check fails and otherwise requires a registered rename provider for the
model. -/
def renameActionEnabled (ctx : ActionContext) : Bool :=
  superEnabled ctx && ctx.hasRenameProvider

/-- Lines 188-192: the menu visibility expression
KbExpr.and(ModeContextKeys.hasRenameProvider, EditorContextKeys.Writable). -/
def renameMenuVisible (ctx : ActionContext) : Bool :=
  ctx.hasRenameProvider && ctx.writable

/-- Lines 195-200: RenameAction.supported returns false when the base
check fails and otherwise requires a registered rename provider and the
absence of an editable range on the model. -/
def renameActionSupported (ctx : ActionContext) : Bool :=
  ctx.superSupported && (ctx.hasRenameProvider && !ctx.hasEditableRange)

/-- A context with a registered provider, a writable document and an
editable range on the model. -/
def ctxEditableRange : ActionContext :=
  { hasRenameProvider := true
    hasEditableRange := true
    writable := true
    superSupported := true
    superEnabledOther := true }

/-- A context without any registered rename provider. -/
def ctxNoProvider : ActionContext :=
  { hasRenameProvider := false
    hasEditableRange := false
    writable := true
    superSupported := true
    superEnabledOther := true }

end Rename

/-- Claim C2: for every token and selection, the highlighted sub-range
passed to the input collector is [0, token length] when the selection is
empty or spans multiple lines, and otherwise is
(max 0 (selectionStart - tokenStart), min tokenEnd selectionEnd - tokenStart),
which under the document-model invariants (the token surrounds the
selection start, the selection is normalised, the token text spans its
column range) equals the intersection of selection and token clamped to
[0, tokenLength]. -/
theorem claim_C2_subrange (sel : Rename.Selection) (word : Rename.WordAtPosition)
    (h1 : word.startColumn ≤ sel.startColumn)
    (h2 : sel.startColumn ≤ word.endColumn)
    (h3 : sel.startLineNumber = sel.endLineNumber → sel.startColumn ≤ sel.endColumn)
    (h4 : word.endColumn = word.startColumn + (word.word.length : Int)) :
    ((sel.isEmpty = true ∨ sel.startLineNumber ≠ sel.endLineNumber) →
      Rename.computeSelectionRange sel word = (0, (word.word.length : Int)))
    ∧ (sel.isEmpty = false → sel.startLineNumber = sel.endLineNumber →
      Rename.computeSelectionRange sel word =
        (max 0 (sel.startColumn - word.startColumn),
         min word.endColumn sel.endColumn - word.startColumn))
    ∧ Rename.computeSelectionRange sel word = Rename.specSubRange sel word := by
  unfold Rename.computeSelectionRange Rename.specSubRange Rename.clampToToken
  by_cases hline : sel.startLineNumber = sel.endLineNumber
  · by_cases hempty : sel.isEmpty = true
    · refine ⟨fun _ => by simp [hempty, hline], fun hf _ => by simp [hf] at hempty, ?_⟩
      simp [hempty, hline]
    · have hempty' : sel.isEmpty = false := by
        cases h : sel.isEmpty
        · rfl
        · exact absurd h hempty
      have hcol := h3 hline
      refine ⟨fun hc => ?_, fun _ _ => by simp [hempty', hline], ?_⟩
      · rcases hc with hc | hc
        · exact absurd hc hempty
        · exact absurd hline hc
      · simp only [hempty', hline, Bool.not_false, beq_self_eq_true, Bool.true_and, if_true,
          bne_self_eq_false, Bool.or_false, Bool.false_eq_true, if_false, Prod.mk.injEq]
        constructor <;> omega
  · refine ⟨fun _ => ?_, fun _ hl => absurd hl hline, ?_⟩
    · simp [Rename.Selection.isEmpty, hline]
    · simp [Rename.Selection.isEmpty, hline]

/-- Concrete instantiation of claim C2: token foo at columns 5-8 on line 1
with the selection from column 6 to column 7 on that line. -/
theorem claim_C2_subrange_witness :
    Rename.computeSelectionRange
      { startLineNumber := 1, startColumn := 6, endLineNumber := 1, endColumn := 7 }
      { word := "foo", startColumn := 5, endColumn := 8 } =
    Rename.specSubRange
      { startLineNumber := 1, startColumn := 6, endLineNumber := 1, endColumn := 7 }
      { word := "foo", startColumn := 5, endColumn := 8 } :=
  (claim_C2_subrange
    { startLineNumber := 1, startColumn := 6, endLineNumber := 1, endColumn := 7 }
    { word := "foo", startColumn := 5, endColumn := 8 }
    (by decide) (by decide) (fun _ => by decide) (by decide)).2.2

/-- Claim C1: in every run() interaction in which the input collector is
shown, the visibility key is true at the moment the collector is shown
(it is set immediately before), and it is false again once the returned
outcome settles, on all four terminal paths (commit success, reject
reason, cancellation, unexpected error) as well as on the no-token
path. -/
theorem claim_C1_visibility_invariant (env : Rename.RenameEnv) :
    Rename.shownOnlyWhileVisible (Rename.run env).1 false = true ∧
    Rename.finalVisible (Rename.run env).1 = false := by
  obtain ⟨w, sel, inp, rr, fr⟩ := env
  cases w with
  | none => exact ⟨rfl, rfl⟩
  | some word =>
    cases inp with
    | error e =>
      constructor <;>
        simp [Rename.run, Rename.showInputEvents, Rename.shownOnlyWhileVisible,
          Rename.finalVisible, Rename.visStep]
    | ok name =>
      cases rr with
      | error e =>
        cases e <;> constructor <;>
          simp [Rename.run, Rename.showInputEvents, Rename.renameOperationTail,
            Rename.prepareRenameErrHandler, Rename.shownOnlyWhileVisible,
            Rename.finalVisible, Rename.visStep]
      | ok r =>
        cases ht : Rename.rejectReasonTruthy r.rejectReason <;>
        obtain e | (_ | s) := fr <;>
        constructor <;>
          simp [Rename.run, Rename.showInputEvents, Rename.renameOperationTail,
            Rename.prepareRenameErrHandler, Rename.finishContinuation, ht,
            Rename.shownOnlyWhileVisible, Rename.finalVisible, Rename.visStep]

/-- Claim C7: when the document model reports no token at the
selection's start position, run() is a complete no-op: it returns the
noop outcome with an empty effect trace, so the collector is never
shown, the visibility key is never set, no message is shown and no
document is modified. -/
theorem claim_C7_no_token_noop (env : Rename.RenameEnv)
    (h : env.wordAtPosition = none) :
    Rename.run env = ([], Rename.RunOutcome.noop) ∧
    Rename.inputShows (Rename.run env).1 = [] ∧
    Rename.messagesOf (Rename.run env).1 = [] ∧
    Rename.stagedOf (Rename.run env).1 = [] ∧
    Rename.finishCount (Rename.run env).1 = 0 ∧
    Rename.finalVisible (Rename.run env).1 = false := by
  obtain ⟨w, sel, inp, rr, fr⟩ := env
  subst h
  exact ⟨rfl, rfl, rfl, rfl, rfl, rfl⟩

/-- Concrete instantiation of claim C7 at an environment whose word
lookup yields nothing. -/
theorem claim_C7_no_token_noop_witness :
    Rename.run Rename.envNoWord = ([], Rename.RunOutcome.noop) :=
  (claim_C7_no_token_noop Rename.envNoWord rfl).1

/-- Claim C4: when the collector rejects, the visibility key is reset
and focus is returned to the editor in every case, no message is shown,
nothing is staged and the document is untouched; the dedicated
cancellation signal is swallowed (the outcome resolves without error)
while any other rejection value is propagated as the outcome's error. -/
theorem claim_C4_collector_rejection (env : Rename.RenameEnv)
    (word : Rename.WordAtPosition) (e : Rename.JsValue)
    (hw : env.wordAtPosition = some word)
    (hi : env.inputResult = Except.error e) :
    Rename.finalVisible (Rename.run env).1 = false ∧
    Rename.focusCount (Rename.run env).1 = 1 ∧
    Rename.messagesOf (Rename.run env).1 = [] ∧
    Rename.stagedOf (Rename.run env).1 = [] ∧
    Rename.finishCount (Rename.run env).1 = 0 ∧
    (Rename.run env).2 =
      (if Rename.isPromiseCanceledError e then Rename.RunOutcome.resolved
       else Rename.RunOutcome.rejected e) := by
  obtain ⟨w, sel, inp, rr, fr⟩ := env
  subst hw hi
  refine ⟨?_, ?_, ?_, ?_, ?_, rfl⟩ <;>
    simp [Rename.run, Rename.showInputEvents, Rename.finalVisible, Rename.visStep,
      Rename.focusCount, Rename.messagesOf, Rename.stagedOf, Rename.finishCount]

/-- Concrete instantiation of claim C4 at the cancellation signal: the
rejection is swallowed, nothing is shown or staged, and the flag ends
false. -/
theorem claim_C4_collector_rejection_witness :
    Rename.finalVisible (Rename.run Rename.envCancel).1 = false ∧
    Rename.focusCount (Rename.run Rename.envCancel).1 = 1 ∧
    Rename.messagesOf (Rename.run Rename.envCancel).1 = [] ∧
    Rename.stagedOf (Rename.run Rename.envCancel).1 = [] ∧
    Rename.finishCount (Rename.run Rename.envCancel).1 = 0 ∧
    (Rename.run Rename.envCancel).2 =
      (if Rename.isPromiseCanceledError Rename.JsValue.canceled then
        Rename.RunOutcome.resolved
       else Rename.RunOutcome.rejected Rename.JsValue.canceled) :=
  claim_C4_collector_rejection Rename.envCancel Rename.sampleWord
    Rename.JsValue.canceled rfl rfl

/-- Counterexample to claim C3 as stated: a resolver result carrying the
reject reason string "" is falsy under the JavaScript truthiness test of
line 162 (if result.rejectReason), so no informational message is shown
and the edits are staged and committed instead of nothing happening. -/
theorem claim_C3_counterexample :
    Rename.envEmptyReason.renameResult =
      Except.ok { rejectReason := some "", edits := [Rename.edit1] } ∧
    Rename.messagesOf (Rename.run Rename.envEmptyReason).1 = [] ∧
    Rename.stagedOf (Rename.run Rename.envEmptyReason).1 = [Rename.edit1] ∧
    Rename.finishCount (Rename.run Rename.envEmptyReason).1 = 1 ∧
    (Rename.run Rename.envEmptyReason).2 = Rename.RunOutcome.resolved :=
  ⟨rfl, rfl, rfl, rfl, rfl⟩

/-- Claim C3 amended: for every interaction in which the resolver result
carries a nonempty reject reason string, exactly one informational
message with that text is shown, no edits are staged, the transaction is
never committed, no selection is written, and run() resolves without
propagating an error. The empty reject reason string is falsy in
JavaScript and takes the commit path instead. -/
theorem claim_C3_reject_reason (env : Rename.RenameEnv)
    (word : Rename.WordAtPosition) (name s : String) (r : Rename.RenameResult)
    (hw : env.wordAtPosition = some word)
    (hi : env.inputResult = Except.ok name)
    (hr : env.renameResult = Except.ok r)
    (hs : r.rejectReason = some s)
    (hne : s ≠ "") :
    Rename.messagesOf (Rename.run env).1 = [(Rename.Severity.Info, s)] ∧
    Rename.stagedOf (Rename.run env).1 = [] ∧
    Rename.finishCount (Rename.run env).1 = 0 ∧
    Rename.selectionsSet (Rename.run env).1 = [] ∧
    (Rename.run env).2 = Rename.RunOutcome.resolved := by
  obtain ⟨w, sel, inp, rr, fr⟩ := env
  subst hw hi hr
  have hie : s.isEmpty = false := by
    cases hE : s.isEmpty
    · rfl
    · exact absurd ((String.isEmpty_iff s).mp hE) hne
  have ht : Rename.rejectReasonTruthy (some s) = true := by
    simp [Rename.rejectReasonTruthy, hie]
  refine ⟨?_, ?_, ?_, ?_, ?_⟩ <;>
    simp [Rename.run, Rename.showInputEvents, Rename.renameOperationTail, ht, hs,
      Rename.prepareRenameErrHandler, Rename.messagesOf, Rename.stagedOf,
      Rename.finishCount, Rename.selectionsSet]

/-- Concrete instantiation of amended claim C3: the reject reason
"cannot rename this" yields exactly one informational message, no
staged edits and a resolved outcome. -/
theorem claim_C3_reject_reason_witness :
    Rename.messagesOf (Rename.run Rename.envReason).1 =
      [(Rename.Severity.Info, "cannot rename this")] ∧
    Rename.stagedOf (Rename.run Rename.envReason).1 = [] ∧
    Rename.finishCount (Rename.run Rename.envReason).1 = 0 ∧
    Rename.selectionsSet (Rename.run Rename.envReason).1 = [] ∧
    (Rename.run Rename.envReason).2 = Rename.RunOutcome.resolved :=
  claim_C3_reject_reason Rename.envReason Rename.sampleWord "bar" "cannot rename this"
    { rejectReason := some "cannot rename this", edits := [] } rfl rfl rfl rfl
    (by decide)

/-- Counterexample to claim C5 as stated: when finish() rejects with a
non-string error, the error handler of lines 125-132 is never reached
because it is attached to _prepareRename, before the commit step; no
message at all is shown although the claim demands exactly one
error-severity message. The error is still propagated and the
visibility flag is false. -/
theorem claim_C5_counterexample :
    Rename.JsValue.isString (Rename.JsValue.error 7) = false ∧
    Rename.envFinishError.finishResult = Except.error (Rename.JsValue.error 7) ∧
    Rename.messagesOf (Rename.run Rename.envFinishError).1 = [] ∧
    (Rename.run Rename.envFinishError).2 =
      Rename.RunOutcome.rejected (Rename.JsValue.error 7) ∧
    Rename.finalVisible (Rename.run Rename.envFinishError).1 = false :=
  ⟨rfl, rfl, rfl, rfl, rfl⟩

/-- Claim C5 amended: a non-string rejection raised during edit
computation (the resolver invocation inside _prepareRename) produces
exactly one error-severity message with the generic failure text and is
propagated with the visibility flag false; a non-string rejection
raised during commit (finish()) is propagated with the flag false but
with no message shown, because the error handler is attached before the
commit step and never sees its rejections. -/
theorem claim_C5_unexpected_error (env : Rename.RenameEnv)
    (word : Rename.WordAtPosition) (name : String) (e : Rename.JsValue)
    (hw : env.wordAtPosition = some word)
    (hi : env.inputResult = Except.ok name)
    (hns : Rename.JsValue.isString e = false) :
    (env.renameResult = Except.error e →
      Rename.messagesOf (Rename.run env).1 =
        [(Rename.Severity.Error, Rename.renameFailedText)] ∧
      (Rename.run env).2 = Rename.RunOutcome.rejected e ∧
      Rename.finalVisible (Rename.run env).1 = false) ∧
    (∀ r : Rename.RenameResult, env.renameResult = Except.ok r →
      Rename.rejectReasonTruthy r.rejectReason = false →
      env.finishResult = Except.error e →
      Rename.messagesOf (Rename.run env).1 = [] ∧
      (Rename.run env).2 = Rename.RunOutcome.rejected e ∧
      Rename.finalVisible (Rename.run env).1 = false) := by
  obtain ⟨w, sel, inp, rr, fr⟩ := env
  subst hw hi
  constructor
  · intro hrr
    subst hrr
    cases e with
    | str s => simp [Rename.JsValue.isString] at hns
    | canceled =>
      refine ⟨?_, rfl, ?_⟩ <;>
        simp [Rename.run, Rename.showInputEvents, Rename.renameOperationTail,
          Rename.prepareRenameErrHandler, Rename.messagesOf, Rename.finalVisible,
          Rename.visStep]
    | error n =>
      refine ⟨?_, rfl, ?_⟩ <;>
        simp [Rename.run, Rename.showInputEvents, Rename.renameOperationTail,
          Rename.prepareRenameErrHandler, Rename.messagesOf, Rename.finalVisible,
          Rename.visStep]
  · intro r hrr ht hfr
    subst hrr hfr
    refine ⟨?_, ?_, ?_⟩ <;>
      simp [Rename.run, Rename.showInputEvents, Rename.renameOperationTail, ht,
        Rename.finishContinuation, Rename.messagesOf, Rename.finalVisible,
        Rename.visStep]

/-- Concrete instantiation of amended claim C5: the resolver rejects
with an opaque error, one generic error message is shown, the error is
propagated and the flag ends false. -/
theorem claim_C5_unexpected_error_witness :
    Rename.messagesOf (Rename.run Rename.envResolverError).1 =
      [(Rename.Severity.Error, Rename.renameFailedText)] ∧
    (Rename.run Rename.envResolverError).2 =
      Rename.RunOutcome.rejected (Rename.JsValue.error 3) ∧
    Rename.finalVisible (Rename.run Rename.envResolverError).1 = false :=
  (claim_C5_unexpected_error Rename.envResolverError Rename.sampleWord "bar"
    (Rename.JsValue.error 3) rfl rfl rfl).1 rfl

/-- Claim C6: on the accepted-input commit path (resolver result without
a reject reason) exactly the resolver's edits are staged in order into
the single fresh BulkEdit transaction, finish() is called exactly once,
and a returned selection is applied to the editor while the absence of
one leaves the editor selection untouched; both variants resolve
without error. -/
theorem claim_C6_commit_path (env : Rename.RenameEnv)
    (word : Rename.WordAtPosition) (name : String) (r : Rename.RenameResult)
    (hw : env.wordAtPosition = some word)
    (hi : env.inputResult = Except.ok name)
    (hr : env.renameResult = Except.ok r)
    (hn : r.rejectReason = none) :
    Rename.stagedOf (Rename.run env).1 = r.edits ∧
    Rename.finishCount (Rename.run env).1 = 1 ∧
    Rename.createBulkEditCount (Rename.run env).1 = 1 ∧
    (∀ S : Rename.Selection, env.finishResult = Except.ok (some S) →
      Rename.selectionsSet (Rename.run env).1 = [S] ∧
      (Rename.run env).2 = Rename.RunOutcome.resolved) ∧
    (env.finishResult = Except.ok none →
      Rename.selectionsSet (Rename.run env).1 = [] ∧
      (Rename.run env).2 = Rename.RunOutcome.resolved) := by
  obtain ⟨w, sel, inp, rr, fr⟩ := env
  subst hw hi hr
  have ht : Rename.rejectReasonTruthy r.rejectReason = false := by
    simp [Rename.rejectReasonTruthy, hn]
  refine ⟨?_, ?_, ?_, fun S hS => ?_, fun hN => ?_⟩
  · obtain e | (_ | s) := fr <;>
      simp [Rename.run, Rename.showInputEvents, Rename.renameOperationTail, ht,
        Rename.finishContinuation, Rename.stagedOf]
  · obtain e | (_ | s) := fr <;>
      simp [Rename.run, Rename.showInputEvents, Rename.renameOperationTail, ht,
        Rename.finishContinuation, Rename.finishCount]
  · obtain e | (_ | s) := fr <;>
      simp [Rename.run, Rename.showInputEvents, Rename.renameOperationTail, ht,
        Rename.finishContinuation, Rename.createBulkEditCount]
  · subst hS
    constructor <;>
      simp [Rename.run, Rename.showInputEvents, Rename.renameOperationTail, ht,
        Rename.finishContinuation, Rename.selectionsSet]
  · subst hN
    constructor <;>
      simp [Rename.run, Rename.showInputEvents, Rename.renameOperationTail, ht,
        Rename.finishContinuation, Rename.selectionsSet]

/-- Concrete instantiation of claim C6: the resolver returns the edits
e1, e2 and finish() returns a selection; exactly those edits are staged
in order, finish() runs once, and the selection is applied. -/
theorem claim_C6_commit_path_witness :
    Rename.stagedOf (Rename.run Rename.envCommit).1 = [Rename.edit1, Rename.edit2] ∧
    Rename.finishCount (Rename.run Rename.envCommit).1 = 1 ∧
    Rename.createBulkEditCount (Rename.run Rename.envCommit).1 = 1 ∧
    Rename.selectionsSet (Rename.run Rename.envCommit).1 =
      [Rename.sampleResultSelection] ∧
    (Rename.run Rename.envCommit).2 = Rename.RunOutcome.resolved := by
  have h := claim_C6_commit_path Rename.envCommit Rename.sampleWord "bar"
    { rejectReason := none, edits := [Rename.edit1, Rename.edit2] } rfl rfl rfl rfl
  exact ⟨h.1, h.2.1, h.2.2.1, (h.2.2.2.1 Rename.sampleResultSelection rfl).1,
    (h.2.2.2.1 Rename.sampleResultSelection rfl).2⟩

/-- Claim C8: every accepted input hands the pending staged step to the
progress service exactly once, with the literal 250ms delay threshold;
the outcome of run() is exactly the outcome of the staged step itself
(the indicator wraps the operation without cancelling it), and the
modelled service shows the indicator precisely when the step outlives
the threshold. -/
theorem claim_C8_progress_threshold (env : Rename.RenameEnv)
    (word : Rename.WordAtPosition) (name : String)
    (hw : env.wordAtPosition = some word)
    (hi : env.inputResult = Except.ok name) :
    Rename.progressCalls (Rename.run env).1 = [250] ∧
    (Rename.run env).2 =
      (Rename.renameOperationTail env.renameResult env.finishResult).2 ∧
    (∀ d : Nat, Rename.progressVisible d 250 = true ↔ 250 < d) := by
  obtain ⟨w, sel, inp, rr, fr⟩ := env
  subst hw hi
  refine ⟨?_, rfl, fun d => by simp [Rename.progressVisible]⟩
  cases rr with
  | error e =>
    cases e <;>
      simp [Rename.run, Rename.showInputEvents, Rename.renameOperationTail,
        Rename.prepareRenameErrHandler, Rename.progressCalls]
  | ok r =>
    cases ht : Rename.rejectReasonTruthy r.rejectReason <;>
    obtain e | (_ | s) := fr <;>
      simp [Rename.run, Rename.showInputEvents, Rename.renameOperationTail, ht,
        Rename.prepareRenameErrHandler, Rename.finishContinuation,
        Rename.progressCalls]

/-- Concrete instantiation of claim C8 on a successful commit. -/
theorem claim_C8_progress_threshold_witness :
    Rename.progressCalls (Rename.run Rename.envCommit).1 = [250] ∧
    (Rename.run Rename.envCommit).2 =
      (Rename.renameOperationTail Rename.envCommit.renameResult
        Rename.envCommit.finishResult).2 ∧
    (∀ d : Nat, Rename.progressVisible d 250 = true ↔ 250 < d) :=
  claim_C8_progress_threshold Rename.envCommit Rename.sampleWord "bar" rfl rfl

/-- Claim C9: the rename action is enabled only when a rename provider
is registered for the model and (through the base check, modelled from
the spec) the document is writable; the menu visibility expression
likewise requires both; in particular, without a registered provider
both the enabled check and the menu visibility condition are false. -/
theorem claim_C9_action_enablement (ctx : Rename.ActionContext) :
    (Rename.renameActionEnabled ctx = true →
      ctx.hasRenameProvider = true ∧ ctx.writable = true) ∧
    (Rename.renameMenuVisible ctx = true →
      ctx.hasRenameProvider = true ∧ ctx.writable = true) ∧
    (ctx.hasRenameProvider = false →
      Rename.renameActionEnabled ctx = false ∧
      Rename.renameMenuVisible ctx = false) := by
  obtain ⟨p, h, w, s, o⟩ := ctx
  cases p <;> cases w <;> cases o <;>
    simp [Rename.renameActionEnabled, Rename.renameMenuVisible, Rename.superEnabled]

/-- Concrete instantiation of claim C9 at a context with no registered
rename provider. -/
theorem claim_C9_action_enablement_witness :
    Rename.renameActionEnabled Rename.ctxNoProvider = false ∧
    Rename.renameMenuVisible Rename.ctxNoProvider = false :=
  (claim_C9_action_enablement Rename.ctxNoProvider).2.2 rfl

/-- Claim C10: RenameAction.supported returns false whenever the model
reports an editable range, even with a registered provider; supported
can only be true when the model has no editable range. -/
theorem claim_C10_editable_range (ctx : Rename.ActionContext) :
    (ctx.hasEditableRange = true → Rename.renameActionSupported ctx = false) ∧
    (Rename.renameActionSupported ctx = true → ctx.hasEditableRange = false) := by
  obtain ⟨p, h, w, s, o⟩ := ctx
  cases h <;> cases p <;> cases s <;>
    simp [Rename.renameActionSupported]

/-- Concrete instantiation of claim C10 at a context whose model has an
editable range while a provider is registered and the base check
passes. -/
theorem claim_C10_editable_range_witness :
    Rename.renameActionSupported Rename.ctxEditableRange = false :=
  (claim_C10_editable_range Rename.ctxEditableRange).1 rfl
